import Mathlib

/-!
# Verification of the data-visualizer bot's profiling and chart-selection logic

Shallow embedding of the decision logic of `src/visualization/profiler.py`,
`src/visualization/recommender.py`, `src/visualization/plots.py` and the
column-selection routing of `src/bot/handlers.py`.

Tables are modelled as ordered lists of named, dtype-tagged columns whose
cells are either null (pandas `NaN`/`NaT`), a rational number, a string, or
a date (absolute day number).  Rendering itself (Plotly figures, PNG bytes)
is delegated to an external library in the source and is not modelled; what
is modelled is every computation the source performs to decide *what* is
rendered: dtype probing, unique/null counting, the chart-kind decision
trees, histogram subsampling and bin choice, line/scatter downsampling,
pie-slice folding, date bucketing, quantiles and the IQR outlier mask.
-/

set_option maxRecDepth 8000

namespace DataVizBot

/-- Pandas dtypes that occur in the source's probes.  `object` is the
dtype of text columns, `datetime` of parsed date columns. -/
inductive Dtype
  | int64
  | float64
  | int32
  | float32
  | boolean
  | object
  | datetime
  | category
  deriving DecidableEq, Repr

/-- `pd.api.types.is_numeric_dtype`: true for every numeric width and for
booleans, false for object/datetime/category. -/
def isNumericDtype : Dtype → Bool
  | .int64 | .float64 | .int32 | .float32 | .boolean => true
  | _ => false

/-- The profiler's own numeric test, `dtype in ['int64', 'float64']`
(`profiler.py` lines 61 and 93). -/
def profilerNumericDtype (d : Dtype) : Bool :=
  d = Dtype.int64 || d = Dtype.float64

/-- One cell of a column: null (`NaN`/`NaT`), a number, a string, or a
date given as an absolute day number. -/
inductive Cell
  | null
  | num (q : ℚ)
  | str (s : String)
  | date (d : Nat)
  deriving DecidableEq, Repr

/-- A named column with its pandas dtype and cells. -/
structure Column where
  name : String
  dtype : Dtype
  values : List Cell

/-- A dataframe: a row count and columns, each column having exactly
`nrows` cells (the pandas invariant that all columns share the index). -/
structure Table where
  nrows : Nat
  cols : List Column
  hrows : ∀ c ∈ cols, c.values.length = nrows

/-- Column lookup by name, as `df[column]` / `column in df.columns`. -/
def Table.findCol (t : Table) (name : String) : Option Column :=
  t.cols.find? (fun c => c.name == name)

/-- `Series.isnull().sum()`: number of null cells. -/
def nullCount (c : Column) : Nat :=
  c.values.countP (fun v => v == Cell.null)

/-- `Series.nunique()`: number of distinct non-null values. -/
def nunique (c : Column) : Nat :=
  ((c.values.filter (fun v => !(v == Cell.null))).dedup).length

/-- The non-null numeric payload of a column, in order; pandas skips
`NaN` in every aggregate the profiler computes. -/
def nonNullNums (c : Column) : List ℚ :=
  c.values.filterMap (fun v => match v with | Cell.num q => some q | _ => none)

/-- The chart catalog: histogram, bar, pie, line, scatter and the
date-bucketed chart produced by `create_date_plot`. -/
inductive ChartKind
  | histogram
  | bar
  | pie
  | line
  | scatter
  | dateBucketed
  deriving DecidableEq, Repr

/-- Profiler / recommender error taxonomy: a missing column name
(`ValueError: Колонка ... не найдена`) or a non-numeric column passed to
`detect_outliers` (`ValueError: Колонка ... не числовая`). -/
inductive PErr
  | columnNotFound
  | notNumeric
  deriving DecidableEq, Repr

/-- `PlotGenerator.create_auto_visualization` (`plots.py` 231-244),
restricted to the chart kind it selects: numeric dtype → histogram when
`nunique > 20` else value-counts bar; otherwise pie when
`1 < nunique ≤ 8`, else a top-10 value-counts bar. -/
def create_auto_visualization_kind (c : Column) : ChartKind :=
  let is_numeric := isNumericDtype c.dtype
  let unique_count := nunique c
  if is_numeric then
    if unique_count > 20 then ChartKind.histogram else ChartKind.bar
  else if unique_count ≤ 8 ∧ unique_count > 1 then ChartKind.pie
  else ChartKind.bar

/-- `VisualizationRecommender.get_visualization_for_column`
(`recommender.py` 97-160), restricted to the `"type"` field of the
returned recommendation.  The source's three numeric branches return
histogram / bar / bar and its three categorical branches return
pie / bar / bar, preserved here branch for branch. -/
def get_visualization_for_column (t : Table) (name : String) :
    Except PErr ChartKind :=
  match t.findCol name with
  | none => Except.error PErr.columnNotFound
  | some c =>
    let is_numeric := isNumericDtype c.dtype
    let unique_count := nunique c
    if is_numeric then
      if unique_count > 20 then Except.ok ChartKind.histogram
      else if unique_count > 5 then Except.ok ChartKind.bar
      else Except.ok ChartKind.bar
    else
      if unique_count ≤ 8 ∧ unique_count > 1 then Except.ok ChartKind.pie
      else if unique_count ≤ 15 then Except.ok ChartKind.bar
      else Except.ok ChartKind.bar

/-- The chart routing of `handle_column_selection` (`handlers.py`
205-239): `is_numeric = pd.api.types.is_numeric_dtype(df[column])`,
`is_categorical = df[column].dtype == 'object' or df[column].nunique() <= 10`,
then numeric → histogram for `nunique > 20` else bar; categorical → pie
for `nunique ≤ 8` else bar; default → bar.  No branch invokes
`create_date_plot`. -/
def handle_column_selection_kind (d : Dtype) (u : Nat) : ChartKind :=
  let is_numeric := isNumericDtype d
  let is_categorical := d == Dtype.object || u ≤ 10
  if is_numeric then
    if u > 20 then ChartKind.histogram else ChartKind.bar
  else if is_categorical then
    if u ≤ 8 then ChartKind.pie else ChartKind.bar
  else ChartKind.bar

/-- `handle_column_selection` applied to a column: both probes are
computed from the freshly re-read dataframe column. -/
def handle_column_selection_col (c : Column) : ChartKind :=
  handle_column_selection_kind c.dtype (nunique c)

/-! ## Profiler (`src/visualization/profiler.py`) -/

/-- Result shape of `DataProfiler.get_basic_info` (`profiler.py` 20-33).
`memory_usage` is a byte count of the in-memory layout and is not
modelled; no claim concerns it. -/
structure BasicInfo where
  shape : Nat × Nat
  columns : List String
  dtypes : List (String × Dtype)
  null_counts : List (String × Nat)

/-- `DataProfiler.get_basic_info`: `df.shape`, ordered column names,
dtype map and per-column null counts.  The source raises nothing. -/
def get_basic_info (t : Table) : BasicInfo :=
  { shape := (t.nrows, t.cols.length)
    columns := t.cols.map Column.name
    dtypes := t.cols.map (fun c => (c.name, c.dtype))
    null_counts := t.cols.map (fun c => (c.name, nullCount c)) }

/-- Insert into a list sorted ascending. -/
def insertAscQ (x : ℚ) : List ℚ → List ℚ
  | [] => [x]
  | y :: ys => if x ≤ y then x :: y :: ys else y :: insertAscQ x ys

/-- Sort rationals ascending (pandas sorts values before quantile
interpolation). -/
def sortQ : List ℚ → List ℚ
  | [] => []
  | x :: xs => insertAscQ x (sortQ xs)

/-- `Series.quantile(p)` with the default linear interpolation over the
sorted non-null values: position `h = p·(n−1)`, result
`x⌊h⌋ + (h−⌊h⌋)·(x⌊h⌋₊₁ − x⌊h⌋)`; `NaN` (here `none`) on an empty
series. -/
def quantile (p : ℚ) (xs : List ℚ) : Option ℚ :=
  let s := sortQ xs
  if s.length = 0 then none
  else
    let h : ℚ := p * ((s.length : ℚ) - 1)
    let i : Nat := ⌊h⌋.toNat
    let lo := s.getD i 0
    if i + 1 < s.length then some (lo + (h - (i : ℚ)) * (s.getD (i + 1) 0 - lo))
    else some lo

/-- `Series.mean()` with NaN skipped: `NaN` on an empty series. -/
def seriesMean (xs : List ℚ) : Option ℚ :=
  if xs.length = 0 then none else some (xs.sum / (xs.length : ℚ))

/-- `Series.median()` with NaN skipped: middle of the sorted values,
averaging the two middles for an even count; `NaN` when empty. -/
def seriesMedian (xs : List ℚ) : Option ℚ :=
  let s := sortQ xs
  let n := s.length
  if n = 0 then none
  else if n % 2 = 1 then some (s.getD (n / 2) 0)
  else some ((s.getD (n / 2 - 1) 0 + s.getD (n / 2) 0) / 2)

/-- Definedness-faithful model of `Series.std()`: the sample variance
(ddof = 1).  The source's standard deviation is its square root, which is
irrational in general; the root is `NaN` exactly when the radicand is
undefined (fewer than two non-null values), so the `Option` structure of
the two agrees and only it is used by any claim. -/
def seriesVar (xs : List ℚ) : Option ℚ :=
  if xs.length ≤ 1 then none
  else
    let m := xs.sum / (xs.length : ℚ)
    some ((xs.map (fun x => (x - m) ^ 2)).sum / ((xs.length : ℚ) - 1))

/-- Numeric aggregates attached by `get_column_info` for int64/float64
columns; `none` models pandas `NaN`. -/
structure NumStats where
  mean : Option ℚ
  median : Option ℚ
  std : Option ℚ
  min : Option ℚ
  max : Option ℚ
  deriving DecidableEq, Repr

/-- Result shape of `DataProfiler.get_column_info` (`profiler.py`
73-102): base fields always present, numeric aggregates only when the
dtype is exactly int64 or float64. -/
structure ColumnInfo where
  name : String
  dtype : Dtype
  null_count : Nat
  unique_count : Nat
  stats : Option NumStats
  deriving DecidableEq, Repr

/-- `DataProfiler.get_column_info`: raises only for a missing column
name; adds mean/median/std/min/max precisely when
`dtype in ['int64', 'float64']`, each aggregate skipping nulls. -/
def get_column_info (t : Table) (name : String) : Except PErr ColumnInfo :=
  match t.findCol name with
  | none => Except.error PErr.columnNotFound
  | some c =>
    let base : ColumnInfo :=
      { name := c.name
        dtype := c.dtype
        null_count := nullCount c
        unique_count := nunique c
        stats := none }
    if profilerNumericDtype c.dtype then
      let xs := nonNullNums c
      Except.ok
        { base with
            stats := some
              { mean := seriesMean xs
                median := seriesMedian xs
                std := seriesVar xs
                min := xs.min?
                max := xs.max? } }
    else Except.ok base

/-- `DataProfiler.detect_outliers` (`profiler.py` 48-71): missing column
→ `ColumnNotFound`; dtype outside {int64, float64} → `NotNumeric`; else
Q1/Q3 over the non-null values, IQR bounds, and the elementwise mask
`(col < lower) | (col > upper)` — null cells compare false, and when the
quantiles are `NaN` (all-null column) every comparison is false. -/
def detect_outliers (t : Table) (name : String) : Except PErr (List Bool) :=
  match t.findCol name with
  | none => Except.error PErr.columnNotFound
  | some c =>
    if profilerNumericDtype c.dtype then
      let xs := nonNullNums c
      match quantile (1/4) xs, quantile (3/4) xs with
      | some q1, some q3 =>
        let iqr := q3 - q1
        let lower_bound := q1 - 3/2 * iqr
        let upper_bound := q3 + 3/2 * iqr
        Except.ok (c.values.map (fun v =>
          match v with
          | Cell.num x => if x < lower_bound ∨ upper_bound < x then true else false
          | _ => false))
      | _, _ => Except.ok (c.values.map (fun _ => false))
    else Except.error PErr.notNumeric

/-! ## Plot generation (`src/visualization/plots.py`) -/

/-- `MAX_POINTS_LINE` (`plots.py` line 12). -/
def MAX_POINTS_LINE : Nat := 2000

/-- `MAX_PIE_SLICES` (`plots.py` line 14). -/
def MAX_PIE_SLICES : Nat := 12

/-- `HISTOGRAM_MAX_BINS` (`plots.py` line 15). -/
def HISTOGRAM_MAX_BINS : Nat := 60

/-- The `bins` parameter default of `create_histogram` (`plots.py`
line 112); every call site in the repository uses this default. -/
def DEFAULT_BINS : Nat := 30

/-- `create_histogram` sampling (`plots.py` 114-116): the non-null data
is replaced by a fixed-seed random sample of exactly 50 000 rows when it
has more than 100 000 rows.  Only the size of the sample is modelled;
`sample(n=50_000, random_state=42)` draws by a seeded PRNG and is a pure
function of the data and the seed. -/
def create_histogram_sample_len (nonNullLen : Nat) : Nat :=
  if nonNullLen > 100000 then 50000 else nonNullLen

/-- `create_histogram` bin choice (`plots.py` line 117):
`bins = min(bins, HISTOGRAM_MAX_BINS, max(10, len(data) // 50))` where
`data` is the (possibly subsampled) non-null series. -/
def create_histogram_bins (bins nonNullLen : Nat) : Nat :=
  let n := create_histogram_sample_len nonNullLen
  min bins (min HISTOGRAM_MAX_BINS (max 10 (n / 50)))

/-- Bin-count formula as worded by the spec and the claim: capped at 60,
floored at 10, otherwise `n / 50` — stated for comparison with the
source-derived `create_histogram_bins`. -/
def spec_histogram_bins (n : Nat) : Nat :=
  min HISTOGRAM_MAX_BINS (max 10 (n / 50))

/-- Indices `0, k, 2k, …` of a list, as `DataFrame.iloc[::k]`; the first
argument is fuel (the list length suffices) making the recursion
structural. -/
def strideAux (k : Nat) : Nat → List α → List α
  | 0, _ => []
  | _, [] => []
  | fuel + 1, x :: xs => x :: strideAux k fuel (xs.drop (k - 1))

/-- `create_line_plot` downsampling (`plots.py` 211-213): when more than
`MAX_POINTS_LINE` non-null rows, keep every `(len // MAX_POINTS_LINE)`-th
row (`plot_df.iloc[:: len(plot_df) // MAX_POINTS_LINE]`). -/
def create_line_plot_points (xs : List α) : List α :=
  if xs.length > MAX_POINTS_LINE then
    strideAux (xs.length / MAX_POINTS_LINE) xs.length xs
  else xs

/-- `create_scatter_plot` downsampling (`plots.py` 222-224): when more
than `MAX_POINTS_LINE` non-null rows, a fixed-seed random sample of
exactly `MAX_POINTS_LINE` rows (`sample(n=MAX_POINTS_LINE,
random_state=42)`).  Modelled at the level of the rendered point count;
the seeded draw is a pure function of the data and the seed. -/
def create_scatter_plot_len (n : Nat) : Nat :=
  if n > MAX_POINTS_LINE then MAX_POINTS_LINE else n

/-- Insert into a count-descending list, after entries of equal count. -/
def insertCountDesc (p : Cell × Nat) :
    List (Cell × Nat) → List (Cell × Nat)
  | [] => [p]
  | q :: qs => if p.2 > q.2 then p :: q :: qs else q :: insertCountDesc p qs

/-- Sort (value, count) pairs by count, descending. -/
def sortCountsDesc : List (Cell × Nat) → List (Cell × Nat)
  | [] => []
  | p :: ps => insertCountDesc p (sortCountsDesc ps)

/-- `Series.value_counts()`: occurrence counts of the distinct non-null
values, sorted by count descending.  pandas leaves the relative order of
equal counts unspecified; this model fixes one deterministic order. -/
def value_counts (xs : List Cell) : List (Cell × Nat) :=
  sortCountsDesc
    (((xs.filter (fun v => !(v == Cell.null))).dedup).map
      (fun v => (v, xs.count v)))

/-- `vc.index.astype(str)`: the string rendering of a cell used for pie
labels. -/
def cellToString : Cell → String
  | Cell.null => "nan"
  | Cell.num q => toString q
  | Cell.str s => s
  | Cell.date d => toString d

/-- `value_counts` of a column with labels cast to strings, as built by
`create_pie_plot` (`plots.py` 172-178). -/
def value_counts_str (c : Column) : List (String × Nat) :=
  (value_counts c.values).map (fun p => (cellToString p.1, p.2))

/-- The slice folding of `create_pie_plot` (`plots.py` 173-176): with
more than `MAX_PIE_SLICES` categories, keep the top
`MAX_PIE_SLICES - 1` and append one slice labelled `"Прочее"` ("Other")
whose value is `vc.iloc[MAX_PIE_SLICES - 1:].sum()`. -/
def create_pie_plot_slices (vc : List (String × Nat)) :
    List (String × Nat) :=
  if vc.length > MAX_PIE_SLICES then
    vc.take (MAX_PIE_SLICES - 1) ++
      [("Прочее", ((vc.drop (MAX_PIE_SLICES - 1)).map Prod.snd).sum)]
  else vc

/-! ## Date bucketing (`create_date_plot`, `plots.py` 136-168) -/

/-- The aggregation frequencies chosen by `create_date_plot`: the pandas
period codes `"D"`, `"W"` and `"ME"`. -/
inductive Freq
  | daily
  | weekly
  | monthly
  deriving DecidableEq, Repr

/-- `create_date_plot` failures: no cell survives datetime parsing
(`ValueError: В колонке ... нет корректных дат`), or the `ValueError`
pandas raises when `Series.dt.to_period` is handed the frequency string
`"ME"`, which is not a valid Period frequency in any pandas release. -/
inductive DateError
  | noValidDates
  | invalidFreqME
  deriving DecidableEq, Repr

/-- Week index of an absolute day number for the pandas `"W"` (= W-SUN)
period: 7-day blocks ending on Sunday; day 0 (1970-01-01) is a Thursday,
so days 0-3 share week 0 and Monday day 4 starts week 1. -/
def weekOfDay (d : Nat) : Nat := (d + 3) / 7

/-- `ser.dt.to_period(freq)` (`plots.py` line 148): the source passes
the frequency strings `"D"`, `"W"` and `"ME"`.  `"D"` and `"W"` map
each day to its daily or weekly period; `"ME"` is not a valid pandas
Period frequency (pre-2.2: `Invalid frequency: ME`; 2.2+: `for Period,
please use 'M' instead of 'ME'`), so `to_period` raises `ValueError`. -/
def seriesToPeriod (freq : Freq) (ser : List Nat) :
    Except DateError (List Nat) :=
  match freq with
  | Freq.daily => Except.ok (ser.map (fun d => d))
  | Freq.weekly => Except.ok (ser.map weekOfDay)
  | Freq.monthly => Except.error DateError.invalidFreqME

/-- `ser.max()` of a nonempty series of day numbers (0 on empty, unused
there: the source raises first). -/
def serMax : List Nat → Nat
  | [] => 0
  | d :: ds => ds.foldl max d

/-- `ser.min()` of a nonempty series of day numbers. -/
def serMin : List Nat → Nat
  | [] => 0
  | d :: ds => ds.foldl min d

/-- `(ser.max() - ser.min()).days`: the day span of the parsed dates. -/
def daysSpan (l : List Nat) : Nat := serMax l - serMin l

/-- The frequency choice of `create_date_plot` (`plots.py` 141-147):
span ≤ 31 days → daily, span ≤ 365 days → weekly, else monthly. -/
def dateFreq (span : Nat) : Freq :=
  if span ≤ 31 then Freq.daily
  else if span ≤ 365 then Freq.weekly
  else Freq.monthly

/-- Insert into an ascending list of naturals. -/
def insertAscNat (x : Nat) : List Nat → List Nat
  | [] => [x]
  | y :: ys => if x ≤ y then x :: y :: ys else y :: insertAscNat x ys

/-- Sort naturals ascending (`sort_index()` on the period counts). -/
def sortNatAsc : List Nat → List Nat
  | [] => []
  | x :: xs => insertAscNat x (sortNatAsc xs)

/-- What `create_date_plot` renders: the chosen frequency, the
`(period, count)` rows of `plot_df` sorted by period, and whether the
figure is a bar chart (`len(plot_df) <= 35`) or a marked line. -/
structure DatePlot where
  freq : Freq
  buckets : List (Nat × Nat)
  chart : ChartKind
  deriving DecidableEq, Repr

/-- `PlotGenerator.create_date_plot` (`plots.py` 136-168).  A column cell
is `some d` when `pd.to_datetime` parses it to day `d` and `none` when it
is null or fails parsing (`errors="coerce"` plus the two `dropna()`
calls drop exactly those).  Raises `noValidDates` when nothing survives;
otherwise buckets by the span-chosen period and renders bars iff at most
35 buckets — except that the monthly branch chooses the frequency string
`"ME"`, so `ser.dt.to_period` raises `ValueError` for every span over
365 days and no monthly bucketing ever happens. -/
def create_date_plot (col : List (Option Nat)) : Except DateError DatePlot :=
  match col.filterMap id with
  | [] => Except.error DateError.noValidDates
  | d :: ds =>
    let ser := d :: ds
    let freq := dateFreq (daysSpan ser)
    match seriesToPeriod freq ser with
    | Except.error e => Except.error e
    | Except.ok periods =>
      let buckets := (sortNatAsc periods.dedup).map (fun p => (p, periods.count p))
      Except.ok
        { freq := freq
          buckets := buckets
          chart := if buckets.length ≤ 35 then ChartKind.bar else ChartKind.line }

/-! ## Concrete tables used by witnesses -/

/-- The spec scenario's `age` column: numeric, 40 unique values. -/
def ageCol : Column :=
  ⟨"age", Dtype.float64, (List.range 40).map (fun i => Cell.num i)⟩

/-- A one-column table holding `ageCol`. -/
def ageTable : Table :=
  ⟨40, [ageCol], by intro c hc; rw [List.mem_singleton] at hc; subst hc; rfl⟩

/-- The spec scenario's `signup_date` column: datetime dtype, 100 rows,
10 distinct days. -/
def signupCol : Column :=
  ⟨"signup_date", Dtype.datetime, (List.range 100).map (fun i => Cell.date (i % 10))⟩

/-- The outlier example column `[1, 2, 3, 4, 5, 100]` (float64). -/
def outlierCol : Column :=
  ⟨"x", Dtype.float64,
    [Cell.num 1, Cell.num 2, Cell.num 3, Cell.num 4, Cell.num 5, Cell.num 100]⟩

/-- A one-column table holding `outlierCol`. -/
def outlierTable : Table :=
  ⟨6, [outlierCol], by intro c hc; rw [List.mem_singleton] at hc; subst hc; rfl⟩

/-- A text column, for the `NotNumeric` branch. -/
def strCol : Column := ⟨"s", Dtype.object, [Cell.str "a"]⟩

/-- A one-column table holding `strCol`. -/
def strTable : Table :=
  ⟨1, [strCol], by intro c hc; rw [List.mem_singleton] at hc; subst hc; rfl⟩

/-- A numeric column whose values are all null. -/
def nullCol : Column :=
  ⟨"z", Dtype.float64, [Cell.null, Cell.null, Cell.null]⟩

/-- A one-column table holding `nullCol`. -/
def nullTable : Table :=
  ⟨3, [nullCol], by intro c hc; rw [List.mem_singleton] at hc; subst hc; rfl⟩

/-- A categorical column with 15 distinct values. -/
def pieCol : Column :=
  ⟨"city", Dtype.object, (List.range 15).map (fun i => Cell.str (toString i))⟩

/-- An int32 column with 25 distinct values: numeric for the selector's
probe, non-numeric for the profiler's dtype whitelist. -/
def i32col : Column :=
  ⟨"age32", Dtype.int32, (List.range 25).map (fun i => Cell.num i)⟩

/-- A one-column table holding `i32col`. -/
def i32table : Table :=
  ⟨25, [i32col], by intro c hc; rw [List.mem_singleton] at hc; subst hc; rfl⟩

/-- A column with nulls, for the `basic_info` witness. -/
def demoCol8 : Column := ⟨"a", Dtype.float64, [Cell.null, Cell.num 1]⟩

/-- A one-column table holding `demoCol8`. -/
def demoTable8 : Table :=
  ⟨2, [demoCol8], by intro c hc; rw [List.mem_singleton] at hc; subst hc; rfl⟩

/-- A date column: three parseable days spanning 9 days, one failure. -/
def demoDates : List (Option Nat) := [some 0, some 9, none, some 3]

/-- What `create_date_plot` yields on `demoDates`. -/
def demoDatePlot : DatePlot :=
  ⟨Freq.daily, [(0, 1), (3, 1), (9, 1)], ChartKind.bar⟩

/-! ## Claims -/

/-- C1: chart-kind selection is a pure function of the column's inferred
kind (`is_numeric_dtype`) and unique-value count: numeric → histogram iff
more than 20 uniques, else a value-counts bar; categorical/text → pie iff
the unique count is at most 8 and greater than 1, else a bar — and the
recommender (`get_visualization_for_column`) and the renderer's auto
selector (`create_auto_visualization`) agree on it. -/
theorem chart_selection_decision_table :
    ∀ (t : Table) (nm : String) (c : Column), t.findCol nm = some c →
      ((create_auto_visualization_kind c = ChartKind.histogram ↔
          isNumericDtype c.dtype = true ∧ 20 < nunique c) ∧
       (create_auto_visualization_kind c = ChartKind.pie ↔
          isNumericDtype c.dtype = false ∧ 1 < nunique c ∧ nunique c ≤ 8) ∧
       (create_auto_visualization_kind c = ChartKind.bar ↔
          ((isNumericDtype c.dtype = true ∧ nunique c ≤ 20) ∨
           (isNumericDtype c.dtype = false ∧ (nunique c ≤ 1 ∨ 8 < nunique c)))) ∧
       get_visualization_for_column t nm =
         Except.ok (create_auto_visualization_kind c)) := by
  intro t nm c h
  simp only [create_auto_visualization_kind, get_visualization_for_column, h]
  cases hb : isNumericDtype c.dtype <;> simp only [hb] <;> split_ifs <;>
    simp_all <;> omega

/-- C1 witness: on the spec's `age` column (float64, 40 uniques) the
selection is a histogram and the recommender agrees. -/
theorem chart_selection_decision_table_witness :
    create_auto_visualization_kind ageCol = ChartKind.histogram ∧
    get_visualization_for_column ageTable "age" =
      Except.ok (create_auto_visualization_kind ageCol) := by
  have h := chart_selection_decision_table ageTable "age" ageCol rfl
  exact ⟨h.1.mpr (by decide), h.2.2.2⟩

/-- C2: the column-selection handler never routes any column — datetime
included — to the date-bucketed renderer: every branch of
`handle_column_selection` yields a histogram, bar or pie, and the spec
scenario's `signup_date` column (datetime dtype, 10 distinct days) gets a
value-counts bar chart, not `create_date_plot`'s daily buckets. -/
theorem handle_column_selection_never_date_bucketed :
    (∀ (d : Dtype) (u : Nat),
        handle_column_selection_kind d u = ChartKind.histogram ∨
        handle_column_selection_kind d u = ChartKind.bar ∨
        handle_column_selection_kind d u = ChartKind.pie) ∧
    nunique signupCol = 10 ∧
    handle_column_selection_col signupCol = ChartKind.bar := by
  refine ⟨?_, by decide, by decide⟩
  intro d u
  cases d <;> simp only [handle_column_selection_kind, isNumericDtype] <;>
    split_ifs <;> simp

/-- C3 (amended): the histogram subsamples to exactly 50 000 rows iff
the column has more than 100 000 non-null values; the bin count is
`min(bins, 60, max(10, n/50))` at the call sites' default `bins = 30`,
i.e. clamped to [10, 30] — the 60-bin cap is never the binding one — and
for 1 000 000 non-null rows the sample is exactly 50 000 and the bin
count 30 (within the claimed 60). -/
theorem create_histogram_sampling_and_bins :
    ∀ n : Nat,
      (100000 < n → create_histogram_sample_len n = 50000) ∧
      (n ≤ 100000 → create_histogram_sample_len n = n) ∧
      create_histogram_bins DEFAULT_BINS n =
        min DEFAULT_BINS (max 10 (create_histogram_sample_len n / 50)) ∧
      10 ≤ create_histogram_bins DEFAULT_BINS n ∧
      create_histogram_bins DEFAULT_BINS n ≤ HISTOGRAM_MAX_BINS ∧
      (create_histogram_sample_len 1000000 = 50000 ∧
       create_histogram_bins DEFAULT_BINS 1000000 = 30) := by
  intro n
  refine ⟨?_, ?_, ?_, ?_, ?_, by decide⟩ <;>
    · simp only [create_histogram_bins, create_histogram_sample_len,
        DEFAULT_BINS, HISTOGRAM_MAX_BINS]
      split_ifs <;> omega

/-- C3 witness: the million-row column of the claim — the sample is
exactly 50 000 rows and the bin count stays within the caps. -/
theorem create_histogram_sampling_and_bins_witness :
    create_histogram_sample_len 1000000 = 50000 ∧
    create_histogram_bins DEFAULT_BINS 1000000 ≤ HISTOGRAM_MAX_BINS := by
  have h := create_histogram_sampling_and_bins 1000000
  exact ⟨h.1 (by decide), h.2.2.2.2.1⟩

/-- C3 counterexample: at 100 000 non-null rows (no subsampling) the
claimed formula — capped at 60, floored at 10, otherwise n/50 — would
give 60 bins, but the code's default `bins` argument of 30 gives 30. -/
theorem create_histogram_bins_capped_by_default_arg :
    create_histogram_bins DEFAULT_BINS 100000 = 30 ∧
    spec_histogram_bins (create_histogram_sample_len 100000) = 60 := by
  decide

/-- Length of stride sampling: keeping indices `0, k, 2k, …` of a list
of length `n` keeps `⌈n / k⌉` elements. -/
theorem strideAux_len {α : Type} (k : Nat) (hk : 1 ≤ k) :
    ∀ (fuel : Nat) (xs : List α), xs.length ≤ fuel →
      (strideAux k fuel xs).length = (xs.length + k - 1) / k := by
  intro fuel
  induction fuel with
  | zero =>
    intro xs hx
    have hnil : xs = [] := List.length_eq_zero.mp (Nat.le_zero.mp hx)
    subst hnil
    simp only [strideAux, List.length_nil]
    exact (Nat.div_eq_of_lt (by omega)).symm
  | succ fuel ih =>
    intro xs hx
    cases xs with
    | nil =>
      simp only [strideAux, List.length_nil]
      exact (Nat.div_eq_of_lt (by omega)).symm
    | cons x t =>
      simp only [strideAux, List.length_cons]
      have hdrop : (t.drop (k - 1)).length = t.length - (k - 1) :=
        List.length_drop _ _
      have ht : (t.drop (k - 1)).length ≤ fuel := by
        rw [hdrop]; simp only [List.length_cons] at hx; omega
      rw [ih _ ht, hdrop]
      by_cases hc : k - 1 ≤ t.length
      · have h1 : t.length - (k - 1) + k - 1 = t.length := by omega
        have h2 : t.length + 1 + k - 1 = t.length + k := by omega
        rw [h1, h2, Nat.add_div_right _ (by omega : 0 < k)]
      · have h1 : t.length - (k - 1) + k - 1 = k - 1 := by omega
        have h2 : t.length + 1 + k - 1 = t.length + k := by omega
        rw [h1, h2, Nat.add_div_right _ (by omega : 0 < k),
          Nat.div_eq_of_lt (by omega : k - 1 < k),
          Nat.div_eq_of_lt (by omega : t.length < k)]

/-- C4 (amended): the scatter sample has exactly `min(n, 2000)` points
(fixed-seed random draw, deterministic for a given table), and the line
stride sample is deterministic and keeps every table with at most 2000
rows intact — but its point count is only bounded by 3999, not by 2000:
`iloc[::n // 2000]` keeps `⌈n / (n // 2000)⌉` points. -/
theorem line_scatter_point_caps :
    ∀ xs : List ℚ,
      create_scatter_plot_len xs.length = min xs.length MAX_POINTS_LINE ∧
      (create_line_plot_points xs).length ≤ 2 * MAX_POINTS_LINE - 1 ∧
      (xs.length ≤ MAX_POINTS_LINE → create_line_plot_points xs = xs) := by
  intro xs
  refine ⟨?_, ?_, ?_⟩
  · simp only [create_scatter_plot_len, MAX_POINTS_LINE]
    split_ifs <;> omega
  · simp only [create_line_plot_points, MAX_POINTS_LINE]
    split_ifs with h
    · have hk : 1 ≤ xs.length / 2000 :=
        (Nat.one_le_div_iff (by omega)).mpr (by omega)
      rw [strideAux_len (xs.length / 2000) hk xs.length xs (le_refl _)]
      have hmod := Nat.div_add_mod xs.length 2000
      have hm : xs.length % 2000 < 2000 := Nat.mod_lt _ (by omega)
      have hlt : (xs.length + xs.length / 2000 - 1) / (xs.length / 2000) < 4000 := by
        rw [Nat.div_lt_iff_lt_mul (by omega : 0 < xs.length / 2000)]
        omega
      omega
    · omega
  · intro hle
    simp only [MAX_POINTS_LINE] at hle
    simp only [create_line_plot_points, MAX_POINTS_LINE]
    split_ifs with h
    · exact absurd h (by omega)
    · rfl

/-- C4 witness: a three-point table is rendered untouched by both
downsamplers. -/
theorem line_scatter_point_caps_witness :
    create_scatter_plot_len (3 : Nat) = min 3 MAX_POINTS_LINE ∧
    create_line_plot_points [(1 : ℚ), 2, 3] = [1, 2, 3] := by
  have h := line_scatter_point_caps [(1 : ℚ), 2, 3]
  exact ⟨h.1, h.2.2 (by decide)⟩

/-- C4 counterexample: a 3000-row series keeps all 3000 line points —
the stride `3000 // 2000 = 1` drops nothing — exceeding the claimed
2000-point cap. -/
theorem line_points_exceed_cap :
    (create_line_plot_points (List.replicate 3000 (0 : ℚ))).length = 3000 ∧
    MAX_POINTS_LINE = 2000 := by
  constructor
  · simp only [create_line_plot_points, List.length_replicate]
    rw [if_pos (show 3000 > MAX_POINTS_LINE by decide)]
    rw [strideAux_len (3000 / MAX_POINTS_LINE) (by decide) 3000
        (List.replicate 3000 (0 : ℚ)) (le_of_eq (List.length_replicate _ _))]
    rw [List.length_replicate]
    decide
  · rfl

/-- C5: with more than 12 categories the pie shows exactly 12 slices:
the top 11 unchanged, and a final slice labelled "Прочее" ("Other")
whose value is the sum of the counts of every dropped category (the
12th-most-frequent onwards). -/
theorem create_pie_plot_folds_other :
    ∀ vc : List (String × Nat), MAX_PIE_SLICES < vc.length →
      (create_pie_plot_slices vc).length = MAX_PIE_SLICES ∧
      (create_pie_plot_slices vc).getLast? =
        some ("Прочее", ((vc.drop (MAX_PIE_SLICES - 1)).map Prod.snd).sum) ∧
      (create_pie_plot_slices vc).take (MAX_PIE_SLICES - 1) =
        vc.take (MAX_PIE_SLICES - 1) := by
  intro vc h
  simp only [create_pie_plot_slices]
  rw [if_pos h]
  refine ⟨?_, ?_, ?_⟩
  · simp only [List.length_append, List.length_take, List.length_cons,
      List.length_nil, MAX_PIE_SLICES]
    simp only [MAX_PIE_SLICES] at h
    omega
  · exact List.getLast?_concat _
  · rw [List.take_append_of_le_length
      (by simp only [List.length_take, MAX_PIE_SLICES]
          simp only [MAX_PIE_SLICES] at h
          omega)]
    rw [List.take_take]
    simp

/-- C5 witness: a categorical column with 15 distinct values — the
rendered pie has exactly 12 entries and its last, labelled "Прочее",
carries the summed count (here 4) of the 12th-through-15th most frequent
categories. -/
theorem create_pie_plot_folds_other_witness :
    (create_pie_plot_slices (value_counts_str pieCol)).length = MAX_PIE_SLICES ∧
    (create_pie_plot_slices (value_counts_str pieCol)).getLast? =
      some ("Прочее",
        (((value_counts_str pieCol).drop (MAX_PIE_SLICES - 1)).map Prod.snd).sum) ∧
    (value_counts_str pieCol).length = 15 ∧
    (((value_counts_str pieCol).drop (MAX_PIE_SLICES - 1)).map Prod.snd).sum = 4 := by
  have h := create_pie_plot_folds_other (value_counts_str pieCol) (by decide)
  exact ⟨h.1, h.2.1, by decide, by decide⟩

/-- C6: the daily/weekly halves of the bucketing policy hold — daily
buckets iff the span is at most 31 days, weekly iff it is 32-365 days,
bars iff at most 35 buckets, and `NoValidDates` exactly when every value
fails datetime parsing — but the monthly branch never runs: the source
hands the invalid Period frequency `"ME"` to `ser.dt.to_period`, so any
span over 365 days raises `ValueError` instead of monthly bucketing,
and every successful plot has a span of at most 365 days. -/
theorem create_date_plot_no_monthly_buckets :
    (∀ col : List (Option Nat),
      (create_date_plot col = Except.error DateError.noValidDates ↔
        ∀ x ∈ col, x = none) ∧
      (∀ out, create_date_plot col = Except.ok out →
        ((out.freq = Freq.daily ↔ daysSpan (col.filterMap id) ≤ 31) ∧
         (out.freq = Freq.weekly ↔
            31 < daysSpan (col.filterMap id) ∧
              daysSpan (col.filterMap id) ≤ 365) ∧
         daysSpan (col.filterMap id) ≤ 365 ∧
         (out.freq = Freq.daily ∨ out.freq = Freq.weekly) ∧
         (out.chart = ChartKind.bar ↔ out.buckets.length ≤ 35) ∧
         (out.chart = ChartKind.bar ∨ out.chart = ChartKind.line))) ∧
      (col.filterMap id ≠ [] → 365 < daysSpan (col.filterMap id) →
        create_date_plot col = Except.error DateError.invalidFreqME)) ∧
    create_date_plot [some 0, some 400] = Except.error DateError.invalidFreqME := by
  refine ⟨?_, rfl⟩
  intro col
  cases hser : col.filterMap id with
  | nil =>
    have herr : create_date_plot col = Except.error DateError.noValidDates := by
      simp only [create_date_plot, hser]
    refine ⟨?_, ?_, ?_⟩
    · rw [herr]
      simp only [true_iff, eq_self_iff_true]
      intro x hx
      have h2 := List.filterMap_eq_nil_iff.mp hser x hx
      simpa using h2
    · intro out hout
      rw [herr] at hout
      exact Except.noConfusion hout
    · intro hne _
      exact absurd rfl hne
  | cons d ds =>
    cases hsp : seriesToPeriod (dateFreq (daysSpan (d :: ds))) (d :: ds) with
    | ok periods =>
      have hok : create_date_plot col = Except.ok
          { freq := dateFreq (daysSpan (d :: ds))
            buckets := (sortNatAsc periods.dedup).map
              (fun p => (p, periods.count p))
            chart := if ((sortNatAsc periods.dedup).map
                (fun p => (p, periods.count p))).length ≤ 35
              then ChartKind.bar else ChartKind.line } := by
        simp only [create_date_plot, hser, hsp]
      have h365 : daysSpan (d :: ds) ≤ 365 := by
        by_contra hgt
        have hm : dateFreq (daysSpan (d :: ds)) = Freq.monthly := by
          simp only [dateFreq]
          rw [if_neg (by omega), if_neg (by omega)]
        rw [hm] at hsp
        simp only [seriesToPeriod] at hsp
        exact Except.noConfusion hsp
      refine ⟨?_, ?_, ?_⟩
      · constructor
        · intro habs
          rw [hok] at habs
          exact Except.noConfusion habs
        · intro hall
          have hnil : col.filterMap id = [] :=
            List.filterMap_eq_nil_iff.mpr (by intro a ha; simp [hall a ha])
          rw [hser] at hnil
          exact List.noConfusion hnil
      · intro out hout
        rw [hok] at hout
        have hout2 := (Except.ok.injEq _ _).mp hout.symm
        subst hout2
        refine ⟨?_, ?_, h365, ?_, ?_, ?_⟩
        · simp only [dateFreq]
          split_ifs <;> simp_all
        · simp only [dateFreq]
          split_ifs <;> simp_all <;> omega
        · simp only [dateFreq]
          split_ifs <;> simp_all
        · split_ifs <;> simp_all
        · split_ifs <;> simp
      · intro _ hgt
        exact absurd hgt (by omega)
    | error e =>
      by_cases h365 : daysSpan (d :: ds) ≤ 365
      · exfalso
        have hexists : ∃ ps,
            seriesToPeriod (dateFreq (daysSpan (d :: ds))) (d :: ds) =
              Except.ok ps := by
          simp only [dateFreq]
          split_ifs
          · exact ⟨_, rfl⟩
          · exact ⟨_, rfl⟩
        obtain ⟨ps, hps⟩ := hexists
        rw [hps] at hsp
        exact Except.noConfusion hsp
      · have hm : dateFreq (daysSpan (d :: ds)) = Freq.monthly := by
          simp only [dateFreq]
          rw [if_neg (by omega), if_neg (by omega)]
        have herr : create_date_plot col = Except.error DateError.invalidFreqME := by
          simp only [create_date_plot, hser, hm, seriesToPeriod]
        refine ⟨?_, ?_, ?_⟩
        · constructor
          · intro habs
            rw [herr] at habs
            injection habs with h3
            exact DateError.noConfusion h3
          · intro hall
            have hnil : col.filterMap id = [] :=
              List.filterMap_eq_nil_iff.mpr (by intro a ha; simp [hall a ha])
            rw [hser] at hnil
            exact List.noConfusion hnil
        · intro out hout
          rw [herr] at hout
          exact Except.noConfusion hout
        · intro _ _
          exact herr

/-- C6 witness: three dates spanning 9 days give a daily-bucketed bar
chart, an all-unparseable column raises `NoValidDates`, and two valid
dates 400 days apart raise the `"ME"` frequency `ValueError` instead of
monthly buckets. -/
theorem create_date_plot_no_monthly_buckets_witness :
    daysSpan (demoDates.filterMap id) ≤ 31 ∧
    demoDatePlot.chart = ChartKind.bar ∧
    create_date_plot [none, none] = Except.error DateError.noValidDates ∧
    create_date_plot [some 0, some 400] = Except.error DateError.invalidFreqME := by
  have h := (create_date_plot_no_monthly_buckets.1 demoDates).2.1 demoDatePlot rfl
  exact ⟨h.1.mp rfl, h.2.2.2.2.1.mpr (by decide),
    (create_date_plot_no_monthly_buckets.1 [none, none]).1.mpr (by decide),
    (create_date_plot_no_monthly_buckets.1 [some 0, some 400]).2.2
      (by decide) (by decide)⟩

/-- C7: `detect_outliers` fails with `NotNumeric` whenever the column's
dtype is outside the profiler's numeric whitelist, and otherwise returns
the 1.5×IQR mask: with Q1 and Q3 the linearly interpolated quartiles of
the non-null values, a cell is flagged iff it holds a number outside
`[Q1 − 1.5·IQR, Q3 + 1.5·IQR]`; on `[1, 2, 3, 4, 5, 100]` the quartiles
are 9/4 and 19/4 (bounds −3/2 and 17/2) and only 100 is flagged. -/
theorem detect_outliers_iqr :
    (∀ (t : Table) (nm : String) (c : Column), t.findCol nm = some c →
      ((profilerNumericDtype c.dtype = false →
          detect_outliers t nm = Except.error PErr.notNumeric) ∧
       (∀ q1 q3, profilerNumericDtype c.dtype = true →
          quantile (1/4) (nonNullNums c) = some q1 →
          quantile (3/4) (nonNullNums c) = some q3 →
          ∃ mask, detect_outliers t nm = Except.ok mask ∧
            mask.length = c.values.length ∧
            ∀ i (hi : i < c.values.length) (hm : i < mask.length),
              mask.get ⟨i, hm⟩ = true ↔
                ∃ x, c.values.get ⟨i, hi⟩ = Cell.num x ∧
                  (x < q1 - 3/2 * (q3 - q1) ∨ q3 + 3/2 * (q3 - q1) < x)))) ∧
    detect_outliers outlierTable "x" =
      Except.ok [false, false, false, false, false, true] ∧
    quantile (1/4) (nonNullNums outlierCol) = some (9/4) ∧
    quantile (3/4) (nonNullNums outlierCol) = some (19/4) := by
  have hq1 : quantile (1/4) (nonNullNums outlierCol) = some (9/4) := by
    norm_num [quantile, sortQ, insertAscQ, nonNullNums, outlierCol,
      Int.toNat_ofNat]
  have hq3 : quantile (3/4) (nonNullNums outlierCol) = some (19/4) := by
    norm_num [quantile, sortQ, insertAscQ, nonNullNums, outlierCol,
      show ((3 : ℤ).toNat = 3) from rfl]
  have hf : outlierTable.findCol "x" = some outlierCol := rfl
  have hdt : profilerNumericDtype outlierCol.dtype = true := rfl
  have hmask : detect_outliers outlierTable "x" =
      Except.ok [false, false, false, false, false, true] := by
    simp only [detect_outliers, hf, hdt, if_true, hq1, hq3]
    norm_num [outlierCol]
  refine ⟨?_, hmask, hq1, hq3⟩
  intro t nm c h
  constructor
  · intro hnum
    simp only [detect_outliers, h, hnum]
    rfl
  · intro q1 q3 hnum hq1c hq3c
    refine ⟨c.values.map (fun v =>
      match v with
      | Cell.num x => if x < q1 - 3/2 * (q3 - q1) ∨ q3 + 3/2 * (q3 - q1) < x
          then true else false
      | _ => false), ?_, by simp, ?_⟩
    · simp only [detect_outliers, h, hnum, hq1c, hq3c, if_true]
    · intro i hi hm
      simp only [List.get_eq_getElem, List.getElem_map]
      rcases hv : c.values[i] with _ | x | s | d <;> simp [hv]

/-- C7 witness: the text column raises `NotNumeric`, and on
`[1, 2, 3, 4, 5, 100]` exactly the value 100 is flagged. -/
theorem detect_outliers_iqr_witness :
    detect_outliers strTable "s" = Except.error PErr.notNumeric ∧
    detect_outliers outlierTable "x" =
      Except.ok [false, false, false, false, false, true] := by
  exact ⟨(detect_outliers_iqr.1 strTable "s" strCol rfl).1 rfl,
    detect_outliers_iqr.2.1⟩

/-- C8: `get_basic_info` reports the table's exact row and column
counts, one name per column, and a per-column null count never exceeding
the row count; it raises nothing. -/
theorem get_basic_info_counts :
    ∀ t : Table,
      (get_basic_info t).shape.1 = t.nrows ∧
      (get_basic_info t).shape.2 = t.cols.length ∧
      (get_basic_info t).columns.length = t.cols.length ∧
      ∀ p ∈ (get_basic_info t).null_counts, p.2 ≤ t.nrows := by
  intro t
  refine ⟨rfl, rfl, by simp [get_basic_info], ?_⟩
  intro p hp
  simp only [get_basic_info, List.mem_map] at hp
  obtain ⟨c, hc, hpc⟩ := hp
  subst hpc
  calc (c.name, nullCount c).2 = nullCount c := rfl
    _ ≤ c.values.length := List.countP_le_length _
    _ = t.nrows := t.hrows c hc

/-- C8 witness: a 2-row table with one half-null column. -/
theorem get_basic_info_counts_witness :
    (get_basic_info demoTable8).shape.1 = demoTable8.nrows ∧
    ("a", nullCount demoCol8).2 ≤ demoTable8.nrows := by
  have h := get_basic_info_counts demoTable8
  exact ⟨h.1, h.2.2.2 ("a", nullCount demoCol8) (by decide)⟩

/-- C9: `get_column_info` errors only with `ColumnNotFound`, exactly
when the name is absent; on a numeric column whose values are all null
it does not fail but returns the profile with every aggregate
`NaN`/undefined. -/
theorem get_column_info_null_safe :
    ∀ (t : Table) (nm : String),
      (∀ e, get_column_info t nm = Except.error e →
          e = PErr.columnNotFound ∧ t.findCol nm = none) ∧
      (t.findCol nm = none →
          get_column_info t nm = Except.error PErr.columnNotFound) ∧
      (∀ c, t.findCol nm = some c → profilerNumericDtype c.dtype = true →
          (∀ v ∈ c.values, v = Cell.null) →
          get_column_info t nm = Except.ok
            { name := c.name
              dtype := c.dtype
              null_count := c.values.length
              unique_count := 0
              stats := some ⟨none, none, none, none, none⟩ }) := by
  intro t nm
  refine ⟨?_, ?_, ?_⟩
  · intro e he
    cases hf : t.findCol nm with
    | none =>
      simp only [get_column_info, hf] at he
      injection he with h2
      exact ⟨h2.symm, rfl⟩
    | some c =>
      simp only [get_column_info, hf] at he
      split at he <;> exact Except.noConfusion he
  · intro hf
    simp only [get_column_info, hf]
  · intro c hf hnum hall
    have hnn : nonNullNums c = [] := by
      apply List.filterMap_eq_nil_iff.mpr
      intro a ha
      rw [hall a ha]
    have hfil : c.values.filter (fun v => !(v == Cell.null)) = [] := by
      apply List.filter_eq_nil_iff.mpr
      intro a ha
      rw [hall a ha]
      decide
    have hnu : nunique c = 0 := by
      simp only [nunique, hfil, List.dedup_nil, List.length_nil]
    have hnc : nullCount c = c.values.length := by
      apply List.countP_eq_length.mpr
      intro a ha
      rw [hall a ha]
      decide
    simp only [get_column_info, hf, hnum, if_true, hnn, hnu, hnc]
    norm_num [seriesMean, seriesMedian, seriesVar, sortQ]

/-- C9 witness: an all-null float64 column profiles without failing,
with `NaN` mean/median/std/min/max; a missing name is the only error. -/
theorem get_column_info_null_safe_witness :
    get_column_info nullTable "z" = Except.ok
      { name := "z", dtype := Dtype.float64, null_count := 3,
        unique_count := 0, stats := some ⟨none, none, none, none, none⟩ } ∧
    get_column_info nullTable "missing" = Except.error PErr.columnNotFound := by
  have h := (get_column_info_null_safe nullTable "z").2.2 nullCol rfl rfl (by decide)
  exact ⟨h, (get_column_info_null_safe nullTable "missing").2.1 rfl⟩

/-- C10: the profiler's numeric test (`dtype in ['int64', 'float64']`)
is strictly narrower than the selector's `is_numeric_dtype`: every
profiler-numeric dtype is selector-numeric, int32/float32 are
selector-numeric but not profiler-numeric, and on such a column the
selector picks a numeric chart while `get_column_info` omits the
aggregates and `detect_outliers` raises `NotNumeric`. -/
theorem profiler_numeric_narrower_than_selector :
    (∀ d : Dtype, profilerNumericDtype d = true → isNumericDtype d = true) ∧
    (∀ d : Dtype, (d = Dtype.int32 ∨ d = Dtype.float32) →
        isNumericDtype d = true ∧ profilerNumericDtype d = false) ∧
    (∀ (t : Table) (nm : String) (c : Column) (info : ColumnInfo),
        t.findCol nm = some c → profilerNumericDtype c.dtype = false →
        get_column_info t nm = Except.ok info → info.stats = none) ∧
    (∀ (t : Table) (nm : String) (c : Column),
        t.findCol nm = some c → profilerNumericDtype c.dtype = false →
        detect_outliers t nm = Except.error PErr.notNumeric) ∧
    create_auto_visualization_kind i32col = ChartKind.histogram ∧
    get_column_info i32table "age32" = Except.ok
      { name := "age32", dtype := Dtype.int32, null_count := 0,
        unique_count := 25, stats := none } ∧
    detect_outliers i32table "age32" = Except.error PErr.notNumeric := by
  refine ⟨?_, ?_, ?_, ?_, by decide, ?_, ?_⟩
  · intro d hd
    cases d <;> simp_all [profilerNumericDtype, isNumericDtype]
  · intro d hd
    rcases hd with h | h <;> subst h <;> exact ⟨rfl, rfl⟩
  · intro t nm c info hf hnum hok
    simp only [get_column_info, hf, hnum, Bool.false_eq_true, if_false] at hok
    injection hok with h2
    rw [← h2]
  · intro t nm c hf hnum
    simp only [detect_outliers, hf, hnum, Bool.false_eq_true, if_false]
  · rfl
  · rfl

/-- C10 witness: int64 is numeric for both probes; int32 only for the
selector's. -/
theorem profiler_numeric_narrower_than_selector_witness :
    isNumericDtype Dtype.int64 = true ∧
    isNumericDtype Dtype.int32 = true ∧
    profilerNumericDtype Dtype.int32 = false := by
  exact ⟨profiler_numeric_narrower_than_selector.1 Dtype.int64 rfl,
    (profiler_numeric_narrower_than_selector.2.1 Dtype.int32 (Or.inl rfl)).1,
    (profiler_numeric_narrower_than_selector.2.1 Dtype.int32 (Or.inl rfl)).2⟩

end DataVizBot
